import Mathlib

/-!
Verification of `scan_nmap_discord.py`, a periodic network-change detector:
it scans a target's ports and a subnet's hosts with an external tool, parses
the tool's line-oriented output, diffs the result against a persisted JSON
snapshot, sends Discord-webhook notifications for changes, and persists the
new snapshot.

The development shallowly embeds the script.  External effects appear as
explicit parameters:
* the two scan invocations (`subprocess.run` + stdout) become
  `Except PyErr String` inputs (`.error` = `TimeoutExpired` or a tool
  invocation error propagating out of `subprocess.run`);
* the two state files become `Option (Option JVal)` values
  (`none` = `os.path.exists` is false; `some none` = the file exists but
  `open`/`json.load` raised; `some (some j)` = the file parsed to JSON `j`);
* `requests.post` becomes a `DeliveryOutcome` input (a status code, or a
  raised exception);
* writing a state file becomes a `Bool` success flag (`false` = the
  `open`/`json.dump` in `save_json` raised, modelled as `.osError`).

Pure Python fragments (string splitting, `int()`, list comprehensions,
truthiness, JSON-value indexing and membership) are translated function by
function below, working over `List Char` for strings.
-/

namespace ScanNmap

/-! ## Python string primitives -/

/-- Python whitespace for `str.split()` / `str.strip()` (ASCII subset;
the script only ever meets ASCII tool output). -/
def pyIsSpace (c : Char) : Bool :=
  c = ' ' || c = '\t' || c = '\n' || c = '\r' || c = '\x0b' || c = '\x0c'

/-- `s.startswith(t)` / prefix test on char lists. -/
def isPref : List Char → List Char → Bool
  | [], _ => true
  | _ :: _, [] => false
  | a :: as, b :: bs => a = b && isPref as bs

/-- The suffix of `l` strictly after the first occurrence of `sep`
(`none` when `sep` does not occur).  Used both for Python's `sep in s`
membership test and for `s.split(sep)[1]`. -/
def afterSub (sep : List Char) : List Char → Option (List Char)
  | [] => if sep.isEmpty then some [] else none
  | c :: rest =>
    if isPref sep (c :: rest) then some (List.drop sep.length (c :: rest))
    else afterSub sep rest

/-- Python's substring test `sep in s`. -/
def hasSub (sep l : List Char) : Bool := (afterSub sep l).isSome

/-- The prefix of `l` before the first occurrence of `sep`
(all of `l` when `sep` does not occur). -/
def beforeSub (sep : List Char) : List Char → List Char
  | [] => []
  | c :: rest =>
    if isPref sep (c :: rest) then [] else c :: beforeSub sep rest

/-- `s.split(sep)[1]`: the piece between the first occurrence of `sep` and
the following one (or the end).  The script only evaluates this under the
guard `sep in s`, which makes the index valid; outside that guard the
model returns `[]`. -/
def splitIndexOne (sep l : List Char) : List Char :=
  match afterSub sep l with
  | some t => beforeSub sep t
  | none => []

/-- `s.split(c)` for a single-character separator. -/
def splitOnChar (sep : Char) : List Char → List (List Char)
  | [] => [[]]
  | c :: rest =>
    if c = sep then [] :: splitOnChar sep rest
    else
      match splitOnChar sep rest with
      | [] => [[c]]
      | t :: ts => (c :: t) :: ts

/-- The characters `str.splitlines()` treats as line boundaries:
`\n`, `\r`, `\v`, `\f`, the separators `\x1c`-`\x1e`, NEL `\x85`, and
the Unicode line/paragraph separators.  (`\r\n` counting as one boundary
is handled in `splitLinesAux`.) -/
def pyIsLineBreak (c : Char) : Bool :=
  c = '\n' || c = '\r' || c = '\x0b' || c = '\x0c' ||
  c = '\x1c' || c = '\x1d' || c = '\x1e' || c = '\x85' ||
  c = '\u2028' || c = '\u2029'

/-- Worker for `str.splitlines()`: `acc` holds the current line reversed. -/
def splitLinesAux (acc : List Char) : List Char → List (List Char)
  | [] => if acc.isEmpty then [] else [acc.reverse]
  | '\r' :: '\n' :: rest => acc.reverse :: splitLinesAux [] rest
  | c :: rest =>
    if pyIsLineBreak c then acc.reverse :: splitLinesAux [] rest
    else splitLinesAux (c :: acc) rest

/-- Python `s.splitlines()` (split at every `pyIsLineBreak` character, with
`\r\n` as a single boundary; no entry for a trailing terminator, `[]` for
the empty string). -/
def splitLinesL (l : List Char) : List (List Char) := splitLinesAux [] l

/-- Worker for whitespace `str.split()`: `acc` holds the current token
reversed; empty tokens are never emitted. -/
def wsSplitAux (acc : List Char) : List Char → List (List Char)
  | [] => if acc.isEmpty then [] else [acc.reverse]
  | c :: rest =>
    if pyIsSpace c then
      if acc.isEmpty then wsSplitAux [] rest
      else acc.reverse :: wsSplitAux [] rest
    else wsSplitAux (c :: acc) rest

/-- Python `s.split()` (split on whitespace runs, dropping empty tokens). -/
def pySplitWs (l : List Char) : List (List Char) := wsSplitAux [] l

/-- Python `s.strip()`. -/
def pyStripL (l : List Char) : List Char :=
  ((l.dropWhile pyIsSpace).reverse.dropWhile pyIsSpace).reverse

/-- Decimal digit value. -/
def digitVal (c : Char) : Option Nat :=
  if '0' ≤ c ∧ c ≤ '9' then some (c.toNat - '0'.toNat) else none

/-- Value of a nonempty all-digit string (`none` otherwise). -/
def digitsVal : List Char → Option Nat
  | [] => none
  | [c] => digitVal c
  | c :: rest =>
    match digitVal c, digitsVal rest with
    | some d, some n => some (d * 10 ^ rest.length + n)
    | _, _ => none

/-- Python `int(s)` on the decimal fragment the script can meet: optional
surrounding whitespace, optional sign, decimal digits; `none` models the
`ValueError` raised on anything else.  (Numeric-literal underscores and
non-ASCII digits, which Python also accepts, are not modelled; they never
occur in the tool output format.) -/
def pyIntL (l : List Char) : Option Int :=
  match pyStripL l with
  | '+' :: ds => (digitsVal ds).map Int.ofNat
  | '-' :: ds => (digitsVal ds).map (fun n => -(n : Int))
  | ds => (digitsVal ds).map Int.ofNat

/-- Insert into a `le`-sorted list. -/
def insertLeBy (le : α → α → Bool) (a : α) : List α → List α
  | [] => [a]
  | b :: bs => if le a b then a :: b :: bs else b :: insertLeBy le a bs

/-- Insertion sort by a boolean order. -/
def sortLeBy (le : α → α → Bool) : List α → List α
  | [] => []
  | a :: as => insertLeBy le a (sortLeBy le as)

/-- Lexicographic `≤` on char lists (Python string comparison). -/
def charListLe : List Char → List Char → Bool
  | [], _ => true
  | _ :: _, [] => false
  | a :: as, b :: bs =>
    if a = b then charListLe as bs else decide (a < b)

/-- Python `sorted(set(l))` for a list of ints. -/
def pySortedSetInt (l : List Int) : List Int :=
  sortLeBy (fun a b => decide (a ≤ b)) l.dedup

/-- Python `sorted(set(l))` for a list of strings. -/
def pySortedSetStr (l : List String) : List String :=
  sortLeBy (fun a b => charListLe a.data b.data) l.dedup

/-! ## Python exceptions and JSON values -/

/-- The exceptions the script can raise or meet.  `timeoutExpired` and
`toolError` are the `subprocess.run` failures of a scan; `osError` is a
failed file write in `save_json`. -/
inductive PyErr where
  | valueError
  | indexError
  | keyError
  | typeError
  | osError
  | timeoutExpired
  | toolError
  deriving DecidableEq, Repr

/-- JSON values as produced by `json.load` (floats are not modelled; the
script only ever writes ints and strings). -/
inductive JVal where
  | null
  | bool (b : Bool)
  | num (n : Int)
  | str (s : String)
  | arr (elems : List JVal)
  | obj (fields : List (String × JVal))

/-- Python truthiness `not x` (negated): `[]`, `{}`, `0`, `""`, `None`,
`False` are falsy. -/
def pyFalsy : JVal → Bool
  | .null => true
  | .bool b => !b
  | .num n => n = 0
  | .str s => s = ""
  | .arr l => l.isEmpty
  | .obj f => f.isEmpty

/-- Python subscription `j[key]` with a string key: succeeds only on an
object that has the key (`KeyError` when the key is missing, `TypeError`
on any non-dict value). -/
def jGet (j : JVal) (key : String) : Except PyErr JVal :=
  match j with
  | .obj kvs =>
    match kvs.lookup key with
    | some v => .ok v
    | none => .error .keyError
  | _ => .error .typeError

/-- Python iteration `for x in j`: lists yield elements, strings yield
one-character strings, dicts yield keys; anything else raises `TypeError`. -/
def jIter : JVal → Except PyErr (List JVal)
  | .arr l => .ok l
  | .str s => .ok (s.data.map (fun c => .str (String.singleton c)))
  | .obj kvs => .ok (kvs.map (fun kv => .str kv.1))
  | _ => .error .typeError

/-- Python `==` between an int and a JSON value (`True == 1`, `False == 0`;
all other cross-type comparisons are `False`). -/
def pyEqNum (n : Int) : JVal → Bool
  | .num m => n = m
  | .bool b => n = (if b then 1 else 0)
  | _ => false

/-- Python `==` between a str and a JSON value. -/
def pyEqStr (s : String) : JVal → Bool
  | .str t => s = t
  | _ => false

/-- Python membership `n in j` for an int `n`: lists test element equality,
dicts test keys (an int never equals a JSON string key), everything else
raises `TypeError`. -/
def pyNumIn (n : Int) : JVal → Except PyErr Bool
  | .arr l => .ok (l.any (pyEqNum n))
  | .obj _ => .ok false
  | _ => .error .typeError

/-- Python membership `s in j` for a str `s`: lists test element equality,
strings test substring containment, dicts test keys, everything else
raises `TypeError`. -/
def pyStrIn (s : String) : JVal → Except PyErr Bool
  | .arr l => .ok (l.any (pyEqStr s))
  | .str t => .ok (hasSub s.data t.data)
  | .obj kvs => .ok (kvs.any (fun kv => decide (kv.1 = s)))
  | _ => .error .typeError

/-- Python `x == e` between a JSON value and an int list element, used by
`[p for p in prev_ports if p not in current_ports]`. -/
def jvalInIntList (p : JVal) (cur : List Int) : Bool :=
  match p with
  | .num n => cur.any (fun m => n = m)
  | .bool b => cur.any (fun m => (if b then (1 : Int) else 0) = m)
  | _ => false

/-- Membership of a JSON value in a string list, used by
`[h for h in prev_hosts if h not in current_hosts]`. -/
def jvalInStrList (p : JVal) (cur : List String) : Bool :=
  match p with
  | .str s => cur.any (fun t => s = t)
  | _ => false

/-! ## Observation parsers

`parse_ports` / `parse_hosts` from the script.  Both return
`Except PyErr _` because Python code inside them can raise:
`int(segs[0])` raises `ValueError` on a non-numeric port field, and
`parts[1]` would raise `IndexError` on a line with fewer than two
whitespace tokens (we later prove that guard conditions make the latter
unreachable). -/

def portsMarker : List Char := "Ports:".data
def openMarker : List Char := "open".data
def hostMarker : List Char := "Host:".data
def statusUpMarker : List Char := "Status: Up".data

/-- One comma-separated entry of a `Ports:` line:
`segs = p.strip().split("/")`; when the entry is marked `open`,
`int(segs[0])` is taken (raising `ValueError` when non-numeric). -/
def portSeg (p : List Char) : Except PyErr (Option Int) :=
  let segs := splitOnChar '/' (pyStripL p)
  if 2 ≤ segs.length ∧ segs.getD 1 [] = openMarker then
    match pyIntL (segs.getD 0 []) with
    | some n => .ok (some n)
    | none => .error .valueError
  else .ok none

/-- The inner `for p in parts.split(",")` loop of `parse_ports`. -/
def segsLoop : List (List Char) → Except PyErr (List Int)
  | [] => .ok []
  | p :: rest =>
    match portSeg p with
    | .error e => .error e
    | .ok none => segsLoop rest
    | .ok (some n) =>
      match segsLoop rest with
      | .error e => .error e
      | .ok ns => .ok (n :: ns)

/-- One line of `parse_ports`: lines without a `Ports:` marker contribute
nothing. -/
def portsOfLine (line : List Char) : Except PyErr (List Int) :=
  if hasSub portsMarker line then
    segsLoop (splitOnChar ',' (pyStripL (splitIndexOne portsMarker line)))
  else .ok []

/-- The outer `for line in out.splitlines()` loop of `parse_ports`. -/
def portLinesLoop : List (List Char) → Except PyErr (List Int)
  | [] => .ok []
  | line :: rest =>
    match portsOfLine line with
    | .error e => .error e
    | .ok ps =>
      match portLinesLoop rest with
      | .error e => .error e
      | .ok qs => .ok (ps ++ qs)

/-- `parse_ports(out)`: collect open ports from `Ports:` lines, then
`sorted(set(ports))`. -/
def parse_ports (out : String) : Except PyErr (List Int) :=
  match portLinesLoop (splitLinesL out.data) with
  | .error e => .error e
  | .ok ps => .ok (pySortedSetInt ps)

/-- One line of `parse_hosts`: under the guard
`line.startswith("Host:") and "Status: Up" in line`, the address token is
`line.split()[1]` (an `IndexError` if the line had fewer than two
tokens). -/
def hostOfLine (line : List Char) : Except PyErr (Option String) :=
  if isPref hostMarker line && hasSub statusUpMarker line then
    match pySplitWs line with
    | _ :: ip :: _ => .ok (some (String.mk ip))
    | _ => .error .indexError
  else .ok none

/-- The `for line in out.splitlines()` loop of `parse_hosts`. -/
def hostsLoop : List (List Char) → Except PyErr (List String)
  | [] => .ok []
  | line :: rest =>
    match hostOfLine line with
    | .error e => .error e
    | .ok none => hostsLoop rest
    | .ok (some h) =>
      match hostsLoop rest with
      | .error e => .error e
      | .ok hs => .ok (h :: hs)

/-- `parse_hosts(out)`: collect addresses of `Host: ... Status: Up` lines,
then `sorted(set(hosts))`. -/
def parse_hosts (out : String) : Except PyErr (List String) :=
  match hostsLoop (splitLinesL out.data) with
  | .error e => .error e
  | .ok hs => .ok (pySortedSetStr hs)

/-- `load_json(path, default)`: the default when the file is absent, the
default when reading/parsing raised (the bare `except` branch), the parsed
value otherwise.  Never raises. -/
def load_json (file : Option (Option JVal)) (default : JVal) : JVal :=
  match file with
  | none => default
  | some none => default
  | some (some j) => j

/-- `save_json(data, path)`: the write either succeeds, replacing the file
content entirely, or raises (`saveOk = false`, modelled `.osError`), leaving
the recorded state unchanged.  Nothing in the script catches this. -/
def doSave (file : Option (Option JVal)) (data : JVal) (saveOk : Bool) :
    Option (Option JVal) × Except PyErr Unit :=
  if saveOk then (some (some data), .ok ()) else (file, .error .osError)

/-- The `{"ports": current_ports, "ts": int(time.time())}` record. -/
def portsJson (cur : List Int) (now : Int) : JVal :=
  .obj [("ports", .arr (cur.map .num)), ("ts", .num now)]

/-- The `{"hosts": current_hosts, "ts": int(time.time())}` record. -/
def hostsJson (cur : List String) (now : Int) : JVal :=
  .obj [("hosts", .arr (cur.map .str)), ("ts", .num now)]

/-- The `load_json` default for ports, `{"ports": []}`. -/
def portsDefault : JVal := .obj [("ports", .arr [])]

/-- The `load_json` default for hosts, `{"hosts": []}`. -/
def hostsDefault : JVal := .obj [("hosts", .arr [])]

/-! ## Notifier -/

/-- Outcome of the external `requests.post` call: a response with a status
code, or a raised exception (network error, timeout). -/
inductive DeliveryOutcome where
  | status (code : Nat)
  | exc
  deriving DecidableEq, Repr

/-- Observable result of one `send_discord` call: whether a POST was
attempted, and what was logged. -/
structure SendLog where
  attempted : Bool
  log : List String
  deriving DecidableEq, Repr

/-- Python falsiness of the `WEBHOOK` configuration value (`os.getenv`
returns `None` when unset; the empty string is falsy too). -/
def webhookFalsy : Option String → Bool
  | none => true
  | some s => s = ""

/-- The body of `send_discord`: if the webhook is falsy, log an error and
return; otherwise attempt the POST — a returned response has its status
logged (non-2xx included, never raised), a raised exception is caught by
the `try`/`except` and logged.  (Payload construction — title, description,
fields, color, timestamp — builds only local data and cannot raise; it is
not otherwise modelled.) -/
def sendCore (wh : Option String) (outcome : DeliveryOutcome) : SendLog :=
  if webhookFalsy wh then { attempted := false, log := ["Webhook not set"] }
  else
    match outcome with
    | .status code => { attempted := true, log := ["Webhook status " ++ toString code] }
    | .exc => { attempted := true, log := ["Webhook error"] }

/-- `send_discord(title, description, fields, color)`: every path of the
source returns normally (the webhook-unset path returns early, the POST is
wrapped in `try`/`except Exception`), so the embedding always yields `.ok`.
The `title`/`color` arguments of the call sites are carried for fidelity
but do not influence control flow. -/
def send_discord (wh : Option String) (outcome : DeliveryOutcome)
    (title : String) (color : Nat) : Except PyErr SendLog :=
  .ok (sendCore wh outcome)

/-! ## Diff computations (the list comprehensions of `main`) -/

/-- `[p for p in current_ports if p not in prev_ports]` — may raise when
`prev_ports` is a JSON value that does not support `in`. -/
def newPortsCalc (prev : JVal) : List Int → Except PyErr (List Int)
  | [] => .ok []
  | p :: rest =>
    match pyNumIn p prev with
    | .error e => .error e
    | .ok b =>
      match newPortsCalc prev rest with
      | .error e => .error e
      | .ok r => .ok (if b then r else p :: r)

/-- `[p for p in prev_ports if p not in current_ports]` — iterating
`prev_ports` may raise; the membership test against an int list cannot. -/
def closedPortsCalc (prev : JVal) (current : List Int) : Except PyErr (List JVal) :=
  match jIter prev with
  | .error e => .error e
  | .ok elems => .ok (elems.filter (fun p => !jvalInIntList p current))

/-- `[h for h in current_hosts if h not in prev_hosts]`. -/
def newHostsCalc (prev : JVal) : List String → Except PyErr (List String)
  | [] => .ok []
  | h :: rest =>
    match pyStrIn h prev with
    | .error e => .error e
    | .ok b =>
      match newHostsCalc prev rest with
      | .error e => .error e
      | .ok r => .ok (if b then r else h :: r)

/-- `[h for h in prev_hosts if h not in current_hosts]`. -/
def disappearedHostsCalc (prev : JVal) (current : List String) : Except PyErr (List JVal) :=
  match jIter prev with
  | .error e => .error e
  | .ok elems => .ok (elems.filter (fun p => !jvalInStrList p current))

/-! ## Events and the two cycles of `main` -/

/-- One `send_discord` call site of `main`, abstracted to the data it
carries.  `firstScanPorts` is the "🔰 First scan (ports)" call (there is no
hosts counterpart in the source); `newPorts`/`closedPorts`/`newHosts`/
`disappearedHosts` are the four incremental-change calls.  Each constructor
records the changed subset (where applicable) and the full current set, as
the source's embed fields do. -/
inductive Event where
  | firstScanPorts (current : List Int)
  | newPorts (added : List Int) (current : List Int)
  | closedPorts (removed : List JVal) (current : List Int)
  | newHosts (added : List String) (current : List String)
  | disappearedHosts (removed : List JVal) (current : List String)

/-- `if xs: send_discord(...)` — a conditional notification: when `cond`
holds the call is made (an exception from it would propagate) and the
event is recorded. -/
def notifyIf (cond : Bool) (send : Except PyErr SendLog) (ev : Event) :
    Except PyErr (List Event) :=
  if cond then
    match send with
    | .error e => .error e
    | .ok _ => .ok [ev]
  else .ok []

/-- The notification block of the ports cycle: first-run check on
`not prev_ports`, otherwise the independent new-ports and closed-ports
notifications, in source order. -/
def portsNotify (prev : JVal) (current newP : List Int) (closedP : List JVal)
    (wh : Option String) (dv : Nat → DeliveryOutcome) : Except PyErr (List Event) :=
  if pyFalsy prev then
    match send_discord wh (dv 0) "🔰 First scan (ports)" 5814783 with
    | .error e => .error e
    | .ok _ => .ok [.firstScanPorts current]
  else
    match notifyIf (!newP.isEmpty)
        (send_discord wh (dv 0) "⚠️ New ports detected" 15158332)
        (.newPorts newP current) with
    | .error e => .error e
    | .ok evs1 =>
      match notifyIf (!closedP.isEmpty)
          (send_discord wh (dv 1) "🔒 Ports closed" 16776960)
          (.closedPorts closedP current) with
      | .error e => .error e
      | .ok evs2 => .ok (evs1 ++ evs2)

/-- The notification block of the hosts cycle.  Note the asymmetry with
`portsNotify`: there is no first-run branch — the source's comment reads
"First run or new hosts" but the code only checks `if new_hosts`. -/
def hostsNotify (current : List String) (newH : List String) (goneH : List JVal)
    (wh : Option String) (dv : Nat → DeliveryOutcome) : Except PyErr (List Event) :=
  match notifyIf (!newH.isEmpty)
      (send_discord wh (dv 0) "🆕 New hosts detected" 3447003)
      (.newHosts newH current) with
  | .error e => .error e
  | .ok evs1 =>
    match notifyIf (!goneH.isEmpty)
        (send_discord wh (dv 1) "👻 Hosts disappeared" 10181046)
        (.disappearedHosts goneH current) with
    | .error e => .error e
    | .ok evs2 => .ok (evs1 ++ evs2)

/-- The ports half of `main` (source order: scan, parse, load, subscript,
the two comprehensions, notify, save).  Returns the resulting file state,
the events dispatched before any exception, and the outcome; on an
exception the file is left as it was. -/
def portsCycle (file : Option (Option JVal)) (scan : Except PyErr String)
    (wh : Option String) (dv : Nat → DeliveryOutcome) (saveOk : Bool) (now : Int) :
    Option (Option JVal) × List Event × Except PyErr Unit :=
  match scan with
  | .error e => (file, [], .error e)
  | .ok out =>
    match parse_ports out with
    | .error e => (file, [], .error e)
    | .ok current =>
      match jGet (load_json file portsDefault) "ports" with
      | .error e => (file, [], .error e)
      | .ok prev =>
        match newPortsCalc prev current with
        | .error e => (file, [], .error e)
        | .ok newP =>
          match closedPortsCalc prev current with
          | .error e => (file, [], .error e)
          | .ok closedP =>
            match portsNotify prev current newP closedP wh dv with
            | .error e => (file, [], .error e)
            | .ok evs =>
              let (file', res) := doSave file (portsJson current now) saveOk
              (file', evs, res)

/-- The hosts half of `main`. -/
def hostsCycle (file : Option (Option JVal)) (scan : Except PyErr String)
    (wh : Option String) (dv : Nat → DeliveryOutcome) (saveOk : Bool) (now : Int) :
    Option (Option JVal) × List Event × Except PyErr Unit :=
  match scan with
  | .error e => (file, [], .error e)
  | .ok out =>
    match parse_hosts out with
    | .error e => (file, [], .error e)
    | .ok current =>
      match jGet (load_json file hostsDefault) "hosts" with
      | .error e => (file, [], .error e)
      | .ok prev =>
        match newHostsCalc prev current with
        | .error e => (file, [], .error e)
        | .ok newH =>
          match disappearedHostsCalc prev current with
          | .error e => (file, [], .error e)
          | .ok goneH =>
            match hostsNotify current newH goneH wh dv with
            | .error e => (file, [], .error e)
            | .ok evs =>
              let (file', res) := doSave file (hostsJson current now) saveOk
              (file', evs, res)

/-- The two persisted state files. -/
structure World where
  portsFile : Option (Option JVal)
  hostsFile : Option (Option JVal)

/-- Result of one invocation of `main`: final file states, dispatched
events, and whether an exception escaped (nothing in `main` catches). -/
structure RunResult where
  world : World
  events : List Event
  outcome : Except PyErr Unit

/-- `main()`: the ports cycle runs first; an exception anywhere in it
propagates out of `main`, so the hosts cycle only runs when the ports
cycle completed (including its save). -/
def main (w : World) (portScan hostScan : Except PyErr String) (wh : Option String)
    (dvP dvH : Nat → DeliveryOutcome) (portsSaveOk hostsSaveOk : Bool) (now : Int) :
    RunResult :=
  let (pf, pev, pres) := portsCycle w.portsFile portScan wh dvP portsSaveOk now
  match pres with
  | .error e => { world := ⟨pf, w.hostsFile⟩, events := pev, outcome := .error e }
  | .ok _ =>
    let (hf, hev, hres) := hostsCycle w.hostsFile hostScan wh dvH hostsSaveOk now
    { world := ⟨pf, hf⟩, events := pev ++ hev, outcome := hres }

/-! ## Characterization lemmas for the notification blocks and cycles -/

theorem notifyIf_send (c : Bool) (wh : Option String) (o : DeliveryOutcome)
    (t : String) (col : Nat) (ev : Event) :
    notifyIf c (send_discord wh o t col) ev = .ok (if c then [ev] else []) := by
  cases c <;> rfl

theorem portsNotify_eq (prev : JVal) (current newP : List Int) (closedP : List JVal)
    (wh : Option String) (dv : Nat → DeliveryOutcome) :
    portsNotify prev current newP closedP wh dv =
      .ok (if pyFalsy prev then [.firstScanPorts current]
           else (if newP.isEmpty then [] else [.newPorts newP current]) ++
                (if closedP.isEmpty then [] else [.closedPorts closedP current])) := by
  unfold portsNotify
  rw [notifyIf_send, notifyIf_send]
  cases h : pyFalsy prev <;> simp [send_discord]
  cases newP.isEmpty <;> cases closedP.isEmpty <;> rfl

theorem hostsNotify_eq (current : List String) (newH : List String) (goneH : List JVal)
    (wh : Option String) (dv : Nat → DeliveryOutcome) :
    hostsNotify current newH goneH wh dv =
      .ok ((if newH.isEmpty then [] else [.newHosts newH current]) ++
           (if goneH.isEmpty then [] else [.disappearedHosts goneH current])) := by
  unfold hostsNotify
  rw [notifyIf_send, notifyIf_send]
  cases newH.isEmpty <;> cases goneH.isEmpty <;> rfl

theorem portsCycle_spec (file : Option (Option JVal)) (out : String)
    (current newP : List Int) (prev : JVal) (closedP : List JVal)
    (wh : Option String) (dv : Nat → DeliveryOutcome) (saveOk : Bool) (now : Int)
    (hparse : parse_ports out = .ok current)
    (hprev : jGet (load_json file portsDefault) "ports" = .ok prev)
    (hnew : newPortsCalc prev current = .ok newP)
    (hclosed : closedPortsCalc prev current = .ok closedP) :
    portsCycle file (.ok out) wh dv saveOk now =
      ((if saveOk then some (some (portsJson current now)) else file),
       (if pyFalsy prev then [.firstScanPorts current]
        else (if newP.isEmpty then [] else [.newPorts newP current]) ++
             (if closedP.isEmpty then [] else [.closedPorts closedP current])),
       (if saveOk then Except.ok () else .error .osError)) := by
  unfold portsCycle
  simp only [hparse, hprev, hnew, hclosed, portsNotify_eq]
  cases saveOk <;> simp [doSave]

theorem hostsCycle_spec (file : Option (Option JVal)) (out : String)
    (current newH : List String) (prev : JVal) (goneH : List JVal)
    (wh : Option String) (dv : Nat → DeliveryOutcome) (saveOk : Bool) (now : Int)
    (hparse : parse_hosts out = .ok current)
    (hprev : jGet (load_json file hostsDefault) "hosts" = .ok prev)
    (hnew : newHostsCalc prev current = .ok newH)
    (hgone : disappearedHostsCalc prev current = .ok goneH) :
    hostsCycle file (.ok out) wh dv saveOk now =
      ((if saveOk then some (some (hostsJson current now)) else file),
       (if newH.isEmpty then [] else [.newHosts newH current]) ++
       (if goneH.isEmpty then [] else [.disappearedHosts goneH current]),
       (if saveOk then Except.ok () else .error .osError)) := by
  unfold hostsCycle
  simp only [hparse, hprev, hnew, hgone, hostsNotify_eq]
  cases saveOk <;> simp [doSave]

/-! ## The diff computations on well-formed snapshots -/

theorem anyDecideEq_eq_mem {a : Type} [DecidableEq a] (x : a) (B : List a) :
    (B.any fun m => decide (x = m)) = decide (x ∈ B) := by
  induction B with
  | nil => rfl
  | cons b bs ih => by_cases h : x = b <;> simp [h, ih]

theorem anyEqNum_eq_mem (b : Int) (A : List Int) :
    ((A.map JVal.num).any (pyEqNum b)) = decide (b ∈ A) := by
  induction A with
  | nil => rfl
  | cons a as ih => by_cases h : b = a <;> simp [pyEqNum, ih, h]

theorem pyNumIn_arrNums (A : List Int) (b : Int) :
    pyNumIn b (JVal.arr (A.map JVal.num)) = .ok (decide (b ∈ A)) := by
  show Except.ok ((A.map JVal.num).any (pyEqNum b)) = _
  rw [anyEqNum_eq_mem]

theorem newPortsCalc_arrNums (A B : List Int) :
    newPortsCalc (JVal.arr (A.map JVal.num)) B =
      .ok (B.filter (fun b => decide (b ∉ A))) := by
  induction B with
  | nil => rfl
  | cons b bs ih =>
    unfold newPortsCalc
    rw [pyNumIn_arrNums, ih]
    by_cases h : b ∈ A <;> simp [h, List.filter_cons]

theorem jvalInIntList_num (a : Int) (B : List Int) :
    jvalInIntList (JVal.num a) B = decide (a ∈ B) :=
  anyDecideEq_eq_mem a B

theorem filterNotInMapNum (B A : List Int) :
    (A.map JVal.num).filter (fun p => !jvalInIntList p B) =
      (A.filter (fun a => decide (a ∉ B))).map JVal.num := by
  induction A with
  | nil => rfl
  | cons a as ih =>
    by_cases h : a ∈ B <;> simp [List.filter_cons, jvalInIntList_num, h, ih]

theorem closedPortsCalc_arrNums (A B : List Int) :
    closedPortsCalc (JVal.arr (A.map JVal.num)) B =
      .ok ((A.filter (fun a => decide (a ∉ B))).map JVal.num) := by
  show Except.ok ((A.map JVal.num).filter fun p => !jvalInIntList p B) = _
  rw [filterNotInMapNum]

theorem anyEqStr_eq_mem (s : String) (A : List String) :
    ((A.map JVal.str).any (pyEqStr s)) = decide (s ∈ A) := by
  induction A with
  | nil => rfl
  | cons a as ih => by_cases h : s = a <;> simp [pyEqStr, ih, h]

theorem pyStrIn_arrStrs (A : List String) (s : String) :
    pyStrIn s (JVal.arr (A.map JVal.str)) = .ok (decide (s ∈ A)) := by
  show Except.ok ((A.map JVal.str).any (pyEqStr s)) = _
  rw [anyEqStr_eq_mem]

theorem newHostsCalc_arrStrs (A B : List String) :
    newHostsCalc (JVal.arr (A.map JVal.str)) B =
      .ok (B.filter (fun b => decide (b ∉ A))) := by
  induction B with
  | nil => rfl
  | cons b bs ih =>
    unfold newHostsCalc
    rw [pyStrIn_arrStrs, ih]
    by_cases h : b ∈ A <;> simp [h, List.filter_cons]

theorem jvalInStrList_str (s : String) (B : List String) :
    jvalInStrList (JVal.str s) B = decide (s ∈ B) :=
  anyDecideEq_eq_mem s B

theorem filterNotInMapStr (B A : List String) :
    (A.map JVal.str).filter (fun p => !jvalInStrList p B) =
      (A.filter (fun a => decide (a ∉ B))).map JVal.str := by
  induction A with
  | nil => rfl
  | cons a as ih =>
    by_cases h : a ∈ B <;> simp [List.filter_cons, jvalInStrList_str, h, ih]

theorem disappearedHostsCalc_arrStrs (A B : List String) :
    disappearedHostsCalc (JVal.arr (A.map JVal.str)) B =
      .ok ((A.filter (fun a => decide (a ∉ B))).map JVal.str) := by
  show Except.ok ((A.map JVal.str).filter fun p => !jvalInStrList p B) = _
  rw [filterNotInMapStr]

theorem filter_not_mem_toFinset (A B : List Int) :
    (B.filter (fun b => decide (b ∉ A))).toFinset = B.toFinset \ A.toFinset := by
  ext x
  simp [List.mem_filter]

theorem filter_not_mem_toFinset_str (A B : List String) :
    (B.filter (fun b => decide (b ∉ A))).toFinset = B.toFinset \ A.toFinset := by
  ext x
  simp [List.mem_filter]

/-! ## Totality of `parse_hosts`

The interesting point: `parts[1]` cannot raise, because the guard
`"Status: Up" in line` forces the line to contain a non-space character,
a space, and a further non-space character — hence at least two
whitespace-separated tokens. -/

theorem portsCycle_wh_dv_irrel (file : Option (Option JVal)) (scan : Except PyErr String)
    (wh wh2 : Option String) (dv dv2 : Nat → DeliveryOutcome) (saveOk : Bool) (now : Int) :
    portsCycle file scan wh dv saveOk now = portsCycle file scan wh2 dv2 saveOk now := by
  unfold portsCycle
  simp only [portsNotify_eq]

theorem hostsCycle_wh_dv_irrel (file : Option (Option JVal)) (scan : Except PyErr String)
    (wh wh2 : Option String) (dv dv2 : Nat → DeliveryOutcome) (saveOk : Bool) (now : Int) :
    hostsCycle file scan wh dv saveOk now = hostsCycle file scan wh2 dv2 saveOk now := by
  unfold hostsCycle
  simp only [hostsNotify_eq]

theorem main_wh_dv_irrel (w : World) (ps hs : Except PyErr String)
    (wh wh2 : Option String) (dvP dvH dvP2 dvH2 : Nat → DeliveryOutcome)
    (pOk hOk : Bool) (now : Int) :
    main w ps hs wh dvP dvH pOk hOk now = main w ps hs wh2 dvP2 dvH2 pOk hOk now := by
  unfold main
  rw [portsCycle_wh_dv_irrel w.portsFile ps wh wh2 dvP dvP2 pOk now,
      hostsCycle_wh_dv_irrel w.hostsFile hs wh wh2 dvH dvH2 hOk now]

theorem portsCycle_saveFalse (file : Option (Option JVal)) (scan : Except PyErr String)
    (wh : Option String) (dv : Nat → DeliveryOutcome) (now : Int) :
    ∃ e, (portsCycle file scan wh dv false now).2.2 = .error e := by
  unfold portsCycle
  simp only [portsNotify_eq]
  cases scan with
  | error e => exact ⟨e, rfl⟩
  | ok out =>
    dsimp only
    cases parse_ports out with
    | error e => exact ⟨e, rfl⟩
    | ok current =>
      dsimp only
      cases jGet (load_json file portsDefault) "ports" with
      | error e => exact ⟨e, rfl⟩
      | ok prev =>
        dsimp only
        cases newPortsCalc prev current with
        | error e => exact ⟨e, rfl⟩
        | ok newP =>
          dsimp only
          cases closedPortsCalc prev current with
          | error e => exact ⟨e, rfl⟩
          | ok closedP => exact ⟨.osError, rfl⟩

theorem hostsCycle_saveFalse (file : Option (Option JVal)) (scan : Except PyErr String)
    (wh : Option String) (dv : Nat → DeliveryOutcome) (now : Int) :
    ∃ e, (hostsCycle file scan wh dv false now).2.2 = .error e := by
  unfold hostsCycle
  simp only [hostsNotify_eq]
  cases scan with
  | error e => exact ⟨e, rfl⟩
  | ok out =>
    dsimp only
    cases parse_hosts out with
    | error e => exact ⟨e, rfl⟩
    | ok current =>
      dsimp only
      cases jGet (load_json file hostsDefault) "hosts" with
      | error e => exact ⟨e, rfl⟩
      | ok prev =>
        dsimp only
        cases newHostsCalc prev current with
        | error e => exact ⟨e, rfl⟩
        | ok newH =>
          dsimp only
          cases disappearedHostsCalc prev current with
          | error e => exact ⟨e, rfl⟩
          | ok goneH => exact ⟨.osError, rfl⟩

/-! ## Convenient facts about the empty previous snapshot -/

theorem newPortsCalc_emptyPrev (cur : List Int) :
    newPortsCalc (JVal.arr []) cur = .ok cur := by
  have h := newPortsCalc_arrNums [] cur
  simpa using h

theorem closedPortsCalc_emptyPrev (cur : List Int) :
    closedPortsCalc (JVal.arr []) cur = .ok [] := by
  have h := closedPortsCalc_arrNums [] cur
  simpa using h

theorem newHostsCalc_emptyPrev (cur : List String) :
    newHostsCalc (JVal.arr []) cur = .ok cur := by
  have h := newHostsCalc_arrStrs [] cur
  simpa using h

theorem disappearedHostsCalc_emptyPrev (cur : List String) :
    disappearedHostsCalc (JVal.arr []) cur = .ok [] := by
  have h := disappearedHostsCalc_arrStrs [] cur
  simpa using h

/-! ## The claims -/

/-- C1, counterexample.  The claim says that on a first run (empty
previous snapshot) each entity kind raises exactly one FirstObservation
event and no Added/Removed event, through identical code paths.  This is
false for the host kind: with no previous hosts file and one live host
observed, the hosts cycle raises the Added-kind "🆕 New hosts detected"
event (there is no first-observation event for hosts in the source at
all), while the ports cycle in the same situation raises the
"🔰 First scan (ports)" event. -/
theorem c1_counterexample :
    (hostsCycle none (.ok "Host: 10.0.0.5 () Status: Up") (some "https://h")
        (fun _ => .status 204) true 0).2.1
      = [Event.newHosts ["10.0.0.5"] ["10.0.0.5"]] ∧
    (portsCycle none (.ok "Ports: 22/open/tcp//ssh///") (some "https://h")
        (fun _ => .status 204) true 0).2.1
      = [Event.firstScanPorts [22]] :=
  ⟨rfl, rfl⟩

/-- C1, amended.  On a first run (previous snapshot value `[]`), the
ports cycle raises exactly one first-scan event carrying the full current
set and no added/closed event; the hosts cycle has no first-observation
code path — it raises a single new-hosts (Added) event carrying the full
current set when the current set is non-empty, and nothing at all when it
is empty.  The two kinds' code paths are not identical. -/
theorem c1_first_run_policy (fileP fileH : Option (Option JVal)) (outP outH : String)
    (curP : List Int) (curH : List String) (wh : Option String)
    (dvP dvH : Nat → DeliveryOutcome) (sOkP sOkH : Bool) (now : Int)
    (hP : parse_ports outP = .ok curP)
    (hJP : jGet (load_json fileP portsDefault) "ports" = .ok (JVal.arr []))
    (hH : parse_hosts outH = .ok curH)
    (hJH : jGet (load_json fileH hostsDefault) "hosts" = .ok (JVal.arr [])) :
    (portsCycle fileP (.ok outP) wh dvP sOkP now).2.1 = [Event.firstScanPorts curP] ∧
    (hostsCycle fileH (.ok outH) wh dvH sOkH now).2.1 =
      (if curH.isEmpty then [] else [Event.newHosts curH curH]) := by
  constructor
  · rw [portsCycle_spec fileP outP curP curP (JVal.arr []) [] wh dvP sOkP now hP hJP
        (newPortsCalc_emptyPrev curP) (closedPortsCalc_emptyPrev curP)]
    simp [pyFalsy]
  · rw [hostsCycle_spec fileH outH curH curH (JVal.arr []) [] wh dvH sOkH now hH hJH
        (newHostsCalc_emptyPrev curH) (disappearedHostsCalc_emptyPrev curH)]
    simp

/-- C1, witness for the amended theorem at concrete first-run inputs. -/
theorem c1_witness :
    (portsCycle none (.ok "") none (fun _ => .exc) true 0).2.1
      = [Event.firstScanPorts []] ∧
    (hostsCycle none (.ok "Host: 10.0.0.6 () Status: Up") none (fun _ => .exc) true 0).2.1
      = (if (["10.0.0.6"] : List String).isEmpty then []
         else [Event.newHosts ["10.0.0.6"] ["10.0.0.6"]]) :=
  c1_first_run_policy none none "" "Host: 10.0.0.6 () Status: Up" [] ["10.0.0.6"]
    none (fun _ => .exc) (fun _ => .exc) true true 0 rfl rfl rfl rfl

/-- C2.  For all previous/current sets (ports: `A`,`B`; hosts: `C`,`D`)
the computed deltas satisfy `added = current − previous` and
`removed = previous − current`, and both are disjoint from
`previous ∩ current` — identically for the port-diff and the host-diff. -/
theorem c2_diff_sets (A B : List Int) (C D : List String) :
    ∃ (pa pr : List Int) (ha hr : List String),
      newPortsCalc (JVal.arr (A.map JVal.num)) B = .ok pa ∧
      closedPortsCalc (JVal.arr (A.map JVal.num)) B = .ok (pr.map JVal.num) ∧
      newHostsCalc (JVal.arr (C.map JVal.str)) D = .ok ha ∧
      disappearedHostsCalc (JVal.arr (C.map JVal.str)) D = .ok (hr.map JVal.str) ∧
      pa.toFinset = B.toFinset \ A.toFinset ∧
      pr.toFinset = A.toFinset \ B.toFinset ∧
      ha.toFinset = D.toFinset \ C.toFinset ∧
      hr.toFinset = C.toFinset \ D.toFinset ∧
      Disjoint pa.toFinset (A.toFinset ∩ B.toFinset) ∧
      Disjoint pr.toFinset (A.toFinset ∩ B.toFinset) ∧
      Disjoint ha.toFinset (C.toFinset ∩ D.toFinset) ∧
      Disjoint hr.toFinset (C.toFinset ∩ D.toFinset) := by
  refine ⟨B.filter (fun b => decide (b ∉ A)), A.filter (fun a => decide (a ∉ B)),
    D.filter (fun d => decide (d ∉ C)), C.filter (fun c => decide (c ∉ D)),
    newPortsCalc_arrNums A B, closedPortsCalc_arrNums A B,
    newHostsCalc_arrStrs C D, disappearedHostsCalc_arrStrs C D,
    filter_not_mem_toFinset A B, filter_not_mem_toFinset B A,
    filter_not_mem_toFinset_str C D, filter_not_mem_toFinset_str D C,
    ?_, ?_, ?_, ?_⟩
  · rw [filter_not_mem_toFinset]
    exact Finset.sdiff_disjoint.mono_right Finset.inter_subset_left
  · rw [filter_not_mem_toFinset]
    exact Finset.sdiff_disjoint.mono_right Finset.inter_subset_right
  · rw [filter_not_mem_toFinset_str]
    exact Finset.sdiff_disjoint.mono_right Finset.inter_subset_left
  · rw [filter_not_mem_toFinset_str]
    exact Finset.sdiff_disjoint.mono_right Finset.inter_subset_right

/-- C4, counterexample.  The claim says a scan failure for one kind
leaves the other kind's cycle running to completion.  False: with a ports
scan timeout and a perfectly good hosts scan result, the whole run aborts
— no event is raised at all and the hosts file is never written. -/
theorem c4_counterexample :
    (main ⟨none, none⟩ (.error .timeoutExpired) (.ok "Host: 10.0.0.5 () Status: Up")
        (some "https://h") (fun _ => .status 204) (fun _ => .status 204) true true 0).events
      = [] ∧
    (main ⟨none, none⟩ (.error .timeoutExpired) (.ok "Host: 10.0.0.5 () Status: Up")
        (some "https://h") (fun _ => .status 204) (fun _ => .status 204) true true 0).world.hostsFile
      = none ∧
    (main ⟨none, none⟩ (.error .timeoutExpired) (.ok "Host: 10.0.0.5 () Status: Up")
        (some "https://h") (fun _ => .status 204) (fun _ => .status 204) true true 0).outcome
      = .error .timeoutExpired :=
  ⟨rfl, rfl, rfl⟩

/-- C4, amended.  A scan failure aborts that kind's cycle before the
diff step with its snapshot untouched — but the exception is neither
caught nor logged by the script: it propagates and fails the whole
invocation.  A ports-scan failure therefore prevents the hosts cycle from
running at all (only because the hosts cycle runs second does a hosts-scan
failure leave the completed ports cycle intact). -/
theorem c4_scan_failure_aborts (w : World) (e : PyErr) (hs : Except PyErr String)
    (wh : Option String) (dvP dvH dv : Nat → DeliveryOutcome) (pOk hOk sOk : Bool)
    (now : Int) (file : Option (Option JVal)) :
    main w (.error e) hs wh dvP dvH pOk hOk now
      = { world := w, events := [], outcome := .error e } ∧
    portsCycle file (.error e) wh dv sOk now = (file, [], .error e) ∧
    hostsCycle file (.error e) wh dv sOk now = (file, [], .error e) :=
  ⟨rfl, rfl, rfl⟩

/-- C5, counterexample.  The claim says any absent/unreadable/malformed
backing record yields an empty snapshot and the run proceeds.  False for a
readable record holding the valid JSON `{}`: `load_json` returns it as-is,
and the subscription `prev_ports_data["ports"]` raises `KeyError`,
aborting the run. -/
theorem c5_counterexample :
    load_json (some (some (JVal.obj []))) portsDefault = JVal.obj [] ∧
    (portsCycle (some (some (JVal.obj []))) (.ok "") none (fun _ => .exc) true 0).2.2
      = .error .keyError :=
  ⟨rfl, rfl⟩

/-- C5, amended.  When the backing record is absent or its
read/JSON-parse raises, `load_json` yields the empty default, the previous
set is empty, and the cycle proceeds to completion; but a readable record
whose valid JSON lacks the expected key makes the snapshot subscription
raise and abort the run. -/
theorem c5_load_defaults (file : Option (Option JVal))
    (h : file = none ∨ file = some none) :
    (load_json file portsDefault = portsDefault ∧
     load_json file hostsDefault = hostsDefault ∧
     jGet (load_json file portsDefault) "ports" = .ok (JVal.arr []) ∧
     jGet (load_json file hostsDefault) "hosts" = .ok (JVal.arr [])) ∧
    (∀ out cur wh dv now, parse_ports out = .ok cur →
      (portsCycle file (.ok out) wh dv true now).2.2 = .ok ()) ∧
    (∀ out cur wh dv now, parse_hosts out = .ok cur →
      (hostsCycle file (.ok out) wh dv true now).2.2 = .ok ()) := by
  have hload : load_json file portsDefault = portsDefault ∧
      load_json file hostsDefault = hostsDefault := by
    rcases h with rfl | rfl <;> exact ⟨rfl, rfl⟩
  refine ⟨⟨hload.1, hload.2, ?_, ?_⟩, ?_, ?_⟩
  · rw [hload.1]; rfl
  · rw [hload.2]; rfl
  · intro out cur wh dv now hp
    rw [portsCycle_spec file out cur cur (JVal.arr []) [] wh dv true now hp
      (by rw [hload.1]; rfl) (newPortsCalc_emptyPrev cur) (closedPortsCalc_emptyPrev cur)]
    simp
  · intro out cur wh dv now hp
    rw [hostsCycle_spec file out cur cur (JVal.arr []) [] wh dv true now hp
      (by rw [hload.2]; rfl) (newHostsCalc_emptyPrev cur) (disappearedHostsCalc_emptyPrev cur)]
    simp

/-- C5, witness for the amended theorem at an absent backing record. -/
theorem c5_witness :
    load_json none portsDefault = portsDefault ∧
    (portsCycle none (.ok "") none (fun _ => .exc) true 0).2.2 = .ok () ∧
    (hostsCycle none (.ok "") none (fun _ => .exc) true 0).2.2 = .ok () := by
  have h := c5_load_defaults none (Or.inl rfl)
  exact ⟨h.1.1, h.2.1 "" [] none (fun _ => .exc) 0 rfl,
    h.2.2 "" [] none (fun _ => .exc) 0 rfl⟩

theorem filter_not_mem_self {a : Type} [DecidableEq a] (A : List a) :
    A.filter (fun b => decide (b ∉ A)) = [] := by
  rcases h : A.filter (fun b => decide (b ∉ A)) with _ | ⟨x, xs⟩
  · rfl
  · have hx : x ∈ A.filter (fun b => decide (b ∉ A)) := h ▸ List.mem_cons_self x xs
    have hp := List.of_mem_filter hx
    have hmem := List.mem_of_mem_filter hx
    simp only [decide_eq_true_eq] at hp
    exact absurd hmem hp

/-- C6.  Every cycle that reaches the persistence step (all earlier
steps succeeded) and whose write succeeds overwrites the persisted
snapshot with exactly the just-observed current set — unconditionally,
for every webhook configuration and every delivery outcome (the `wh` and
`dv` parameters are universally quantified and never constrain the
conclusion). -/
theorem c6_persist_unconditional (fileP fileH : Option (Option JVal)) (outP outH : String)
    (curP newP : List Int) (curH newH : List String) (prevP prevH : JVal)
    (closedP goneH : List JVal) (wh : Option String) (dvP dvH : Nat → DeliveryOutcome)
    (now : Int)
    (hP : parse_ports outP = .ok curP)
    (hJP : jGet (load_json fileP portsDefault) "ports" = .ok prevP)
    (hNP : newPortsCalc prevP curP = .ok newP)
    (hCP : closedPortsCalc prevP curP = .ok closedP)
    (hH : parse_hosts outH = .ok curH)
    (hJH : jGet (load_json fileH hostsDefault) "hosts" = .ok prevH)
    (hNH : newHostsCalc prevH curH = .ok newH)
    (hGH : disappearedHostsCalc prevH curH = .ok goneH) :
    (portsCycle fileP (.ok outP) wh dvP true now).1 = some (some (portsJson curP now)) ∧
    (hostsCycle fileH (.ok outH) wh dvH true now).1 = some (some (hostsJson curH now)) := by
  constructor
  · rw [portsCycle_spec fileP outP curP newP prevP closedP wh dvP true now hP hJP hNP hCP]
    rfl
  · rw [hostsCycle_spec fileH outH curH newH prevH goneH wh dvH true now hH hJH hNH hGH]
    rfl

/-- C6, witness at concrete inputs. -/
theorem c6_witness :
    (portsCycle none (.ok "") none (fun _ => .exc) true 0).1
      = some (some (portsJson [] 0)) ∧
    (hostsCycle none (.ok "") none (fun _ => .exc) true 0).1
      = some (some (hostsJson [] 0)) :=
  c6_persist_unconditional none none "" "" [] [] [] [] (JVal.arr []) (JVal.arr [])
    [] [] none (fun _ => .exc) (fun _ => .exc) 0 rfl rfl rfl rfl rfl rfl rfl rfl

/-- C7.  Diffing a non-empty set against itself yields no event: a
second cycle whose previous snapshot is exactly what the first cycle
persisted (`portsJson A now1` / `hostsJson C now1`), observing the same
parse result again, raises no Added and no Removed event. -/
theorem c7_idempotent (outP : String) (A : List Int) (outH : String) (C : List String)
    (wh : Option String) (dvP dvH : Nat → DeliveryOutcome) (now1 now2 : Int)
    (hP : parse_ports outP = .ok A) (hA : A ≠ [])
    (hH : parse_hosts outH = .ok C) (hC : C ≠ []) :
    (portsCycle (some (some (portsJson A now1))) (.ok outP) wh dvP true now2).2.1 = [] ∧
    (hostsCycle (some (some (hostsJson C now1))) (.ok outH) wh dvH true now2).2.1 = [] := by
  have hJP : jGet (load_json (some (some (portsJson A now1))) portsDefault) "ports"
      = .ok (JVal.arr (A.map JVal.num)) := by
    simp [load_json, jGet, portsJson, List.lookup]
  have hJH : jGet (load_json (some (some (hostsJson C now1))) hostsDefault) "hosts"
      = .ok (JVal.arr (C.map JVal.str)) := by
    simp [load_json, jGet, hostsJson, List.lookup]
  have hnewP : newPortsCalc (JVal.arr (A.map JVal.num)) A = .ok [] := by
    rw [newPortsCalc_arrNums, filter_not_mem_self]
  have hclosedP : closedPortsCalc (JVal.arr (A.map JVal.num)) A = .ok [] := by
    rw [closedPortsCalc_arrNums, filter_not_mem_self]
    rfl
  have hnewH : newHostsCalc (JVal.arr (C.map JVal.str)) C = .ok [] := by
    rw [newHostsCalc_arrStrs, filter_not_mem_self]
  have hgoneH : disappearedHostsCalc (JVal.arr (C.map JVal.str)) C = .ok [] := by
    rw [disappearedHostsCalc_arrStrs, filter_not_mem_self]
    rfl
  constructor
  · rw [portsCycle_spec _ outP A [] (JVal.arr (A.map JVal.num)) [] wh dvP true now2
      hP hJP hnewP hclosedP]
    have hfalsy : pyFalsy (JVal.arr (A.map JVal.num)) = false := by
      simp [pyFalsy, List.isEmpty_iff, hA]
    simp [hfalsy]
  · rw [hostsCycle_spec _ outH C [] (JVal.arr (C.map JVal.str)) [] wh dvH true now2
      hH hJH hnewH hgoneH]
    simp

/-- C7, witness at concrete inputs. -/
theorem c7_witness :
    (portsCycle (some (some (portsJson [22] 1))) (.ok "Ports: 22/open/tcp//ssh///")
        none (fun _ => .exc) true 2).2.1 = [] ∧
    (hostsCycle (some (some (hostsJson ["10.0.0.5"] 1))) (.ok "Host: 10.0.0.5 () Status: Up")
        none (fun _ => .exc) true 2).2.1 = [] :=
  c7_idempotent "Ports: 22/open/tcp//ssh///" [22] "Host: 10.0.0.5 () Status: Up"
    ["10.0.0.5"] none (fun _ => .exc) (fun _ => .exc) 1 2 rfl (by decide) rfl (by decide)

/-- C8.  A failed snapshot write is a hard failure of the invocation:
whenever the ports (resp. hosts) `save_json` call raises, `main` ends in
an uncaught exception — for every input, since no path catches it. -/
theorem c8_save_failure_propagates (w : World) (ps hs : Except PyErr String)
    (wh : Option String) (dvP dvH : Nat → DeliveryOutcome) (pOk hOk : Bool) (now : Int) :
    (∃ e, (main w ps hs wh dvP dvH false hOk now).outcome = .error e) ∧
    (∃ e, (main w ps hs wh dvP dvH pOk false now).outcome = .error e) := by
  constructor
  · obtain ⟨e, he⟩ := portsCycle_saveFalse w.portsFile ps wh dvP now
    refine ⟨e, ?_⟩
    unfold main
    rcases hX : portsCycle w.portsFile ps wh dvP false now with ⟨pf, pev, pres⟩
    rw [hX] at he
    dsimp only at he ⊢
    rw [he]
  · rcases hX : portsCycle w.portsFile ps wh dvP pOk now with ⟨pf, pev, pres⟩
    cases pres with
    | error e =>
      refine ⟨e, ?_⟩
      unfold main
      rw [hX]
    | ok u =>
      obtain ⟨e, he⟩ := hostsCycle_saveFalse w.hostsFile hs wh dvH now
      refine ⟨e, ?_⟩
      unfold main
      rw [hX]
      dsimp only
      rcases hY : hostsCycle w.hostsFile hs wh dvH false now with ⟨hf, hev, hres⟩
      rw [hY] at he
      dsimp only at he ⊢
      exact he

/-- C9.  Notification delivery is fire-and-forget: `send_discord`
returns normally on every delivery outcome (network exception or any
HTTP status — both only logged), and the entire run result of `main` —
final files, events, outcome — is identical for any delivery outcomes,
so a transport failure neither aborts the run nor prevents
persistence. -/
theorem c9_delivery_nonfatal :
    (∀ (wh : Option String) (o : DeliveryOutcome) (t : String) (c : Nat),
      ∃ s, send_discord wh o t c = .ok s) ∧
    (∀ (w : World) (ps hs : Except PyErr String) (wh : Option String)
      (dvP dvH dvP2 dvH2 : Nat → DeliveryOutcome) (pOk hOk : Bool) (now : Int),
      main w ps hs wh dvP dvH pOk hOk now = main w ps hs wh dvP2 dvH2 pOk hOk now) := by
  constructor
  · exact fun wh o t c => ⟨sendCore wh o, rfl⟩
  · intro w ps hs wh dvP dvH dvP2 dvH2 pOk hOk now
    exact main_wh_dv_irrel w ps hs wh wh dvP dvH dvP2 dvH2 pOk hOk now

/-- C10.  With a falsy webhook configuration, `send_discord` logs
"Webhook not set" and returns without attempting any POST and without
raising, whatever it was called with; and the whole run result of `main`
is the same as with any other webhook configuration — persistence
included. -/
theorem c10_webhook_unset (wh : Option String) (o : DeliveryOutcome) (t : String)
    (c : Nat) (h : webhookFalsy wh = true) :
    send_discord wh o t c = .ok { attempted := false, log := ["Webhook not set"] } ∧
    (∀ (w : World) (ps hs : Except PyErr String) (wh2 : Option String)
      (dvP dvH : Nat → DeliveryOutcome) (pOk hOk : Bool) (now : Int),
      main w ps hs wh dvP dvH pOk hOk now = main w ps hs wh2 dvP dvH pOk hOk now) := by
  constructor
  · simp [send_discord, sendCore, h]
  · intro w ps hs wh2 dvP dvH pOk hOk now
    exact main_wh_dv_irrel w ps hs wh wh2 dvP dvH dvP dvH pOk hOk now

/-- C10, witness at the unset webhook. -/
theorem c10_witness :
    send_discord none .exc "x" 0 = .ok { attempted := false, log := ["Webhook not set"] } :=
  (c10_webhook_unset none .exc "x" 0 rfl).1

end ScanNmap
